import Mathlib

/-!
Verification of the multi-version documentation site generator
(`.github/doc/doc.py`): a Python script that cleans a staging directory,
copies previously published version directories from a `gh-pages` worktree,
generates documentation for one requested Git ref, resolves the version set
from `git tag`, and renders a master `index.html`.

The script is shallowly embedded: Python strings are modelled as `List Char`
(`Str`), external processes as an oracle `Env.run : argv -> CmdResult`, and
filesystem/process effects as an explicit trace of `Step`s.  Pure string
manipulation (`str.split`, `str.splitlines`, `int`, `str.lstrip`, template
formatting, the whitespace normalisation of the final index) is translated
function by function from the source.
-/

/-- Python strings, modelled as lists of characters. -/
abbrev Str := List Char

/-- Convert a Lean string literal to the model's string type. -/
def str (s : String) : Str := s.data

/-! ### Python string primitives -/

/-- Auxiliary for `pySplit`: accumulates the current word (reversed). -/
def pySplitAux : Str → Str → List Str
  | [], acc => if acc = [] then [] else [acc.reverse]
  | c :: rest, acc =>
    if c.isWhitespace then
      if acc = [] then pySplitAux rest [] else acc.reverse :: pySplitAux rest []
    else pySplitAux rest (c :: acc)

/-- Python `str.split()` with no separator: splits on runs of whitespace and
discards empty fields.  (Modelled over the ASCII whitespace characters
recognised by `Char.isWhitespace`.)  This is how `run_cmd` in `doc.py` turns
the composed command string into an argument vector. -/
def pySplit (s : Str) : List Str := pySplitAux s []

/-- Auxiliary for `pySplitlines`: accumulates the current line (reversed).
Recognises the line terminators `\r\n`, `\n`, and `\r`. -/
def pySplitlinesAux : Str → Str → List Str
  | [], acc => if acc = [] then [] else [acc.reverse]
  | '\r' :: '\n' :: rest, acc => acc.reverse :: pySplitlinesAux rest []
  | '\n' :: rest, acc => acc.reverse :: pySplitlinesAux rest []
  | '\r' :: rest, acc => acc.reverse :: pySplitlinesAux rest []
  | c :: rest, acc => pySplitlinesAux rest (c :: acc)

/-- Python `str.splitlines()`: splits at line terminators; a terminator at the
very end of the string does not produce a trailing empty line, but interior
consecutive terminators do produce empty lines. -/
def pySplitlines (s : Str) : List Str := pySplitlinesAux s []

/-- Digits of a Python integer literal after the first digit: decimal digits
optionally separated by single underscores (`int("1_0") = 10`, while
`int("1__0")` and `int("1_")` raise `ValueError`). -/
def pyDigitsAux : Str → Nat → Option Nat
  | [], acc => some acc
  | '_' :: c :: rest, acc =>
    if c.isDigit then pyDigitsAux rest (acc * 10 + (c.toNat - 48)) else none
  | c :: rest, acc =>
    if c.isDigit then pyDigitsAux rest (acc * 10 + (c.toNat - 48)) else none

/-- Parse an unsigned decimal numeral (nonempty, underscore-separated). -/
def pyDigits : Str → Option Nat
  | [] => none
  | c :: rest => if c.isDigit then pyDigitsAux rest (c.toNat - 48) else none

/-- Parse the body of a Python `int()` literal after whitespace stripping:
an optional sign followed by decimal digits. -/
def pyIntCore : Str → Option Int
  | '+' :: rest => (pyDigits rest).map Int.ofNat
  | '-' :: rest => (pyDigits rest).map (fun n => -(Int.ofNat n))
  | s => (pyDigits s).map Int.ofNat

/-- Python `int(s)`: strips surrounding whitespace, then parses an optionally
signed decimal numeral; any other input raises `ValueError` (modelled as
`none`).  Restricted to ASCII decimal digits. -/
def pyInt (s : Str) : Option Int :=
  pyIntCore ((s.dropWhile Char.isWhitespace).reverse.dropWhile Char.isWhitespace).reverse

/-- Python `s.split(".")`: splits at every dot, keeping empty fields
(so `"".split(".") = [""]` and `"1..2".split(".") = ["1","","2"]`). -/
def splitOnDot : Str → List Str
  | [] => [[]]
  | '.' :: rest => [] :: splitOnDot rest
  | c :: rest =>
    match splitOnDot rest with
    | [] => [[c]]
    | g :: gs => (c :: g) :: gs

/-! ### Version-tag parsing and sorting (`get_version_refs`) -/

/-- The sort key of one tag line, from
`lambda s: list(map(int, s.lstrip("v").split(".")))`:
strip all leading `v` characters, split at dots, parse every field as an
integer.  `none` models the `ValueError` raised by `int` on a malformed
field. -/
def tagKey (s : Str) : Option (List Int) :=
  (splitOnDot (s.dropWhile (fun c => c = 'v'))).mapM pyInt

/-- The tag key with a default for unparsable tags; `get_version_refs` only
sorts by it after every tag has been checked to parse. -/
def tagKeyD (s : Str) : List Int := (tagKey s).getD []

/-- Python's `<` on lists of integers: lexicographic, a strict prefix is
smaller. -/
def keyLt : List Int → List Int → Bool
  | [], [] => false
  | [], _ :: _ => true
  | _ :: _, [] => false
  | a :: as, b :: bs => if a < b then true else if b < a then false else keyLt as bs

/-- `keyLe a b` means `a ≤ b` in Python's list order. -/
def keyLe : List Int → List Int → Bool
  | [], _ => true
  | _ :: _, [] => false
  | a :: as, b :: bs => if a < b then true else if b < a then false else keyLe as bs

/-- Lexicographic `≤` on strings (Python's plain string comparison), used
only to contrast the numeric-tuple ordering with the lexical one. -/
def lexLe : Str → Str → Bool
  | [], _ => true
  | _ :: _, [] => false
  | c :: cs, d :: ds => if c < d then true else if d < c then false else lexLe cs ds

/-- Join lines with a newline character between them (the shape of `git tag`
output before the optional final newline). -/
def joinNL : List Str → Str
  | [] => []
  | [l] => l
  | l :: r :: rest => l ++ '\n' :: joinNL (r :: rest)

/-- The ordering used for `tags.sort(reverse=True, key=...)`: tag `a` may
precede tag `b` exactly when `a`'s numeric key is ≥ `b`'s.  A stable sort
with this relation is the behaviour of Python's stable descending sort. -/
def tagGe (a b : Str) : Prop := keyLe (tagKeyD b) (tagKeyD a) = true

instance : DecidableRel tagGe := fun a b => by
  unfold tagGe
  infer_instance

/-- `tags.sort(reverse=True, key=lambda s: list(map(int, s.lstrip("v").split("."))))`:
a stable descending sort by numeric tuple, modelled by insertion sort (any
two stable sorts under the same total preorder agree). -/
def sortTags (tags : List Str) : List Str := List.insertionSort tagGe tags

/-! ### Template rendering (`generate_main_index`) -/

/-- One piece of a template file: literal text, or the single named
placeholder the template carries (the version row template has one
placeholder for the version, the index template one for the version list). -/
inductive TplPart where
  | lit (s : Str)
  | hole
  deriving DecidableEq

/-- A template file, as the interleaving of literal text and occurrences of
its placeholder.  Models the contract of Python `str.format` on a template
whose only named field is that placeholder. -/
abbrev Tpl := List TplPart

/-- `tpl.format(name=v)`: substitute `v` for every occurrence of the
placeholder. -/
def formatTpl (tpl : Tpl) (v : Str) : Str :=
  (tpl.map fun p => match p with | TplPart.lit s => s | TplPart.hole => v).flatten

/-- The accumulation loop of `generate_main_index`:
`version_list = ""; for ver in refs: version_list += version_tpl.format(version=ver)`. -/
def version_list (versionTpl : Tpl) (refs : List Str) : Str :=
  refs.foldl (fun acc ver => acc ++ formatTpl versionTpl ver) []

/-- `index_tpl.format(versions=version_list)`: the index page before
whitespace normalisation. -/
def index_raw (versionTpl indexTpl : Tpl) (refs : List Str) : Str :=
  formatTpl indexTpl (version_list versionTpl refs)

/-- `index_html.replace("\n", "")`: delete every newline, joining adjacent
lines directly. -/
def removeNewlines (s : Str) : Str := s.filter (fun c => c ≠ '\n')

/-- `re.sub(r" +", " ", s)`: replace every maximal run of spaces by a single
space, i.e. drop each space that is immediately followed by another space. -/
def squeezeSpaces : Str → Str
  | [] => []
  | [c] => [c]
  | c1 :: c2 :: rest =>
    if c1 = ' ' ∧ c2 = ' ' then squeezeSpaces (c2 :: rest)
    else c1 :: squeezeSpaces (c2 :: rest)

/-- `generate_main_index` without the filesystem write: expand the version
row template for each ref, substitute the concatenation into the index
template, delete newlines and collapse space runs.  The caller writes the
result to `target/docs/index.html`. -/
def generate_main_index (versionTpl indexTpl : Tpl) (refs : List Str) : Str :=
  squeezeSpaces (removeNewlines (index_raw versionTpl indexTpl refs))

/-! ### External processes, effects and the run (`run_cmd`, `main`) -/

/-- The result of one external process invocation, as captured by
`subprocess.run(..., stdout=PIPE, stderr=PIPE, text=True)`. -/
structure CmdResult where
  exitCode : Int
  stdout : Str
  stderr : Str

/-- The world outside the script: what every external command returns
(keyed by its argument vector), the version directories present in the
`gh-pages` worktree, and the contents of the two index templates.  (The
redirect template is copied verbatim and never inspected.) -/
structure Env where
  run : List Str → CmdResult
  ghPagesDirs : List Str
  versionTpl : Tpl
  indexTpl : Tpl

/-- One observable effect of a run, in order of occurrence. -/
inductive Step where
  /-- `clean`: remove `target/docs` and `target/gh-pages`, recreate
  `target/docs`. -/
  | clean
  /-- an external command was executed with this argument vector. -/
  | cmd (argv : List Str)
  /-- `shutil.copytree(gh_pages/item, docs/item)` for one existing version
  directory. -/
  | copyVersionDir (name : Str)
  /-- progress message written to stdout. -/
  | echo (msg : Str)
  /-- `(docs / git_ref).mkdir(parents=True, exist_ok=True)`. -/
  | mkdirVersion (ref : Str)
  /-- `shutil.copytree(build/"doc", docs/git_ref, dirs_exist_ok=True)`. -/
  | copyBuildDocs (ref : Str)
  /-- `shutil.copy2(redirect_template, docs/git_ref/"index.html")`: the
  redirect page written for this ref. -/
  | writeRedirect (ref : Str)
  /-- `(docs/"index.html").write_text(content)`: the master index written. -/
  | writeIndex (content : Str)
  deriving DecidableEq

/-- The exceptions a run can raise: `subprocess.CalledProcessError` with its
captured stderr, or `ValueError` from `int()` during tag parsing. -/
inductive PyErr where
  | calledProcess (stderr : Str)
  | valueError (msg : Str)
  deriving DecidableEq

instance {ε α : Type} [DecidableEq ε] [DecidableEq α] : DecidableEq (Except ε α) := fun x y =>
  match x, y with
  | Except.error a, Except.error b =>
    if h : a = b then isTrue (h ▸ rfl) else isFalse (fun hc => h (by injection hc))
  | Except.error _, Except.ok _ => isFalse (fun hc => Except.noConfusion hc)
  | Except.ok _, Except.error _ => isFalse (fun hc => Except.noConfusion hc)
  | Except.ok a, Except.ok b =>
    if h : a = b then isTrue (h ▸ rfl) else isFalse (fun hc => h (by injection hc))

/-- The composed command strings the script executes, as in the source's
f-strings (with `gh_pages = Path("target/gh-pages")` and
`build = Path("target/docs_build")`). -/
def worktreeCmd : Str := str "git worktree add target/gh-pages gh-pages -f"

/-- `f"git checkout {git_ref} --"`. -/
def checkoutCmd (git_ref : Str) : Str := str "git checkout " ++ git_ref ++ str " --"

/-- `f"cargo doc --no-deps --target-dir={build}"`. -/
def cargoDocCmd : Str := str "cargo doc --no-deps --target-dir=target/docs_build"

/-- `"git tag"`. -/
def gitTagCmd : Str := str "git tag"

/-- `run_cmd(cmd)`: split the composed command string on whitespace, execute
the resulting argument vector, return captured stdout on exit code 0 and
raise `CalledProcessError` carrying the captured stderr otherwise
(`check=True`).  Also yields the `Step` recording the executed argv. -/
def runCmd (env : Env) (cmd : Str) : Step × Except PyErr Str :=
  let argv := pySplit cmd
  let result := env.run argv
  (Step.cmd argv,
    if result.exitCode = 0 then Except.ok result.stdout
    else Except.error (PyErr.calledProcess result.stderr))

/-- `clean(docs, gh_pages)`: the two `rmtree`s and the `mkdir`, as one
staging-reset step. -/
def cleanSteps : List Step := [Step.clean]

/-- `copy_existing_versions(gh_pages, docs)`: add the `gh-pages` worktree,
then copy each directory inside it into `docs`. -/
def copy_existing_versions (env : Env) : List Step × Option PyErr :=
  match runCmd env worktreeCmd with
  | (s, Except.error e) => ([s], some e)
  | (s, Except.ok _) => (s :: env.ghPagesDirs.map Step.copyVersionDir, none)

/-- `generate_docs(build, docs, git_ref, redirect_template)`: print a
progress line, check out the ref, run the documentation build, create the
version directory, copy the build output into it, and copy the redirect
template over its `index.html`. -/
def generate_docs (env : Env) (git_ref : Str) : List Step × Option PyErr :=
  let p := Step.echo (str "Generating docs for " ++ git_ref ++ str "...")
  match runCmd env (checkoutCmd git_ref) with
  | (s1, Except.error e) => ([p, s1], some e)
  | (s1, Except.ok _) =>
    match runCmd env cargoDocCmd with
    | (s2, Except.error e) => ([p, s1, s2], some e)
    | (s2, Except.ok _) =>
      ([p, s1, s2, Step.mkdirVersion git_ref, Step.copyBuildDocs git_ref,
        Step.writeRedirect git_ref], none)

/-- `get_version_refs()`: list tags, split the captured stdout into lines,
and sort them descending by numeric tuple.  Python's `list.sort(key=...)`
evaluates the key on every element and raises the key's `ValueError` if any
tag is malformed; this is modelled by checking all keys before sorting. -/
def get_version_refs (env : Env) : Step × Except PyErr (List Str) :=
  match runCmd env gitTagCmd with
  | (s, Except.error e) => (s, Except.error e)
  | (s, Except.ok out) =>
    let tags := pySplitlines out
    match tags.mapM tagKey with
    | none => (s, Except.error (PyErr.valueError (str "invalid literal for int() with base 10")))
    | some _ => (s, Except.ok (sortTags tags))

/-- `main(ref, default_ref)`: clean, copy existing versions, generate docs
for the requested ref, resolve the version list (`[default_ref] +
get_version_refs()`), render and write the master index.  Returns the trace
of effects up to completion or up to the raising step, plus the exception if
one was raised. -/
def mainRun (env : Env) (ref : Str) (default_ref : Str) : List Step × Option PyErr :=
  let t0 := cleanSteps
  match copy_existing_versions env with
  | (t1, some e) => (t0 ++ t1, some e)
  | (t1, none) =>
    match generate_docs env ref with
    | (t2, some e) => (t0 ++ t1 ++ t2, some e)
    | (t2, none) =>
      match get_version_refs env with
      | (s3, Except.error e) => (t0 ++ t1 ++ t2 ++ [s3], some e)
      | (s3, Except.ok tags) =>
        let refs := default_ref :: tags
        (t0 ++ t1 ++ t2 ++
          [s3, Step.writeIndex (generate_main_index env.versionTpl env.indexTpl refs)], none)

/-- How one run of the process ends. -/
inductive Outcome where
  /-- `main` returned: exit status 0, nothing caught. -/
  | ok (trace : List Step)
  /-- `subprocess.CalledProcessError` was caught by the `__main__` guard:
  `print(e.stderr)` then `sys.exit(1)`. -/
  | failed (trace : List Step) (diagnostic : Str)
  /-- any other exception propagates uncaught; the interpreter prints a
  traceback (not the captured diagnostic) and exits non-zero. -/
  | uncaught (trace : List Step) (msg : Str)
  deriving DecidableEq

/-- The exit status of each outcome (an uncaught exception makes the
interpreter exit with status 1). -/
def Outcome.exitCode : Outcome → Int
  | Outcome.ok _ => 0
  | Outcome.failed _ _ => 1
  | Outcome.uncaught _ _ => 1

/-- The `__main__` guard: run `main` with the requested ref (default
`"master"`), catching only `subprocess.CalledProcessError`, in which case
the error's captured stderr is printed and the process exits with status 1. -/
def topLevel (env : Env) (arg : Option Str) : Outcome :=
  let default_branch := str "master"
  match mainRun env (arg.getD default_branch) default_branch with
  | (t, none) => Outcome.ok t
  | (t, some (PyErr.calledProcess stderr)) => Outcome.failed t stderr
  | (t, some (PyErr.valueError m)) => Outcome.uncaught t m

/-! ### Concrete environments used as witnesses -/

/-- An environment in which every external command succeeds and `git tag`
prints `tagOut`; the `gh-pages` worktree holds one previously published
version directory, and both templates are a bare placeholder. -/
def okEnv (tagOut : Str) : Env :=
  { run := fun argv =>
      if argv = pySplit gitTagCmd then { exitCode := 0, stdout := tagOut, stderr := [] }
      else { exitCode := 0, stdout := [], stderr := [] },
    ghPagesDirs := [str "v0.9.0"],
    versionTpl := [TplPart.lit (str "<li>"), TplPart.hole, TplPart.lit (str "</li>\n")],
    indexTpl := [TplPart.lit (str "<ul>\n"), TplPart.hole, TplPart.lit (str "</ul>\n")] }

/-- An environment in which the very first external command (the
`git worktree add`) exits with status 128 and a diagnostic on stderr. -/
def failEnv : Env :=
  { run := fun argv =>
      if argv = pySplit worktreeCmd then
        { exitCode := 128, stdout := [], stderr := str "fatal: boom" }
      else { exitCode := 0, stdout := [], stderr := [] },
    ghPagesDirs := [],
    versionTpl := [TplPart.hole],
    indexTpl := [TplPart.hole] }

/-! ### The embedding on concrete inputs

These evaluations pin the embedded primitives to the behaviour of the
Python originals on representative inputs. -/

theorem pySplit_worktree_example :
    pySplit (str "git worktree add target/gh-pages gh-pages -f") =
      [str "git", str "worktree", str "add", str "target/gh-pages", str "gh-pages", str "-f"] := by
  decide

theorem pySplitlines_examples :
    pySplitlines (str "v1.0.0\nv2.0.0\n") = [str "v1.0.0", str "v2.0.0"] ∧
    pySplitlines (str "v1.0.0\n\nv2.0.0") = [str "v1.0.0", [], str "v2.0.0"] ∧
    pySplitlines (str "") = [] ∧
    pySplitlines (str "\n") = [str ""] := by
  refine ⟨by decide, by decide, by decide, by decide⟩

theorem pyInt_examples :
    pyInt (str "10") = some 10 ∧
    pyInt (str "") = none ∧
    pyInt (str "1_0") = some 10 ∧
    pyInt (str "1__0") = none ∧
    pyInt (str "-3") = some (-3) := by
  refine ⟨by decide, by decide, by decide, by decide, by decide⟩

theorem tagKey_examples :
    tagKey (str "v1.10.0") = some [1, 10, 0] ∧
    tagKey (str "") = none ∧
    tagKey (str "abc") = none := by
  refine ⟨by decide, by decide, by decide⟩

theorem squeezeSpaces_example : squeezeSpaces (str "a  b   c") = str "a b c" := by decide

theorem removeNewlines_example : removeNewlines (str "a\nb") = str "ab" := by decide

theorem generate_main_index_example :
    generate_main_index [TplPart.lit (str "<li>"), TplPart.hole, TplPart.lit (str "</li>\n")]
      [TplPart.lit (str "<ul>\n  "), TplPart.hole, TplPart.lit (str "\n</ul>\n")]
      [str "master", str "v1.0.0"] =
    str "<ul> <li>master</li><li>v1.0.0</li></ul>" := by decide

theorem topLevel_ok_example :
    topLevel (okEnv (str "v1.0.0\n")) none =
      Outcome.ok
        [Step.clean, Step.cmd (pySplit worktreeCmd), Step.copyVersionDir (str "v0.9.0"),
         Step.echo (str "Generating docs for master..."),
         Step.cmd (pySplit (checkoutCmd (str "master"))), Step.cmd (pySplit cargoDocCmd),
         Step.mkdirVersion (str "master"), Step.copyBuildDocs (str "master"),
         Step.writeRedirect (str "master"), Step.cmd (pySplit gitTagCmd),
         Step.writeIndex (generate_main_index (okEnv (str "v1.0.0\n")).versionTpl
           (okEnv (str "v1.0.0\n")).indexTpl [str "master", str "v1.0.0"])] := by
  decide

theorem topLevel_failed_example :
    topLevel failEnv none =
      Outcome.failed [Step.clean, Step.cmd (pySplit worktreeCmd)] (str "fatal: boom") := by
  decide

/-! ### Order lemmas for the tag sort key -/

theorem keyLe_total : ∀ a b : List Int, keyLe a b = true ∨ keyLe b a = true
  | [], _ => Or.inl rfl
  | _ :: _, [] => Or.inr rfl
  | x :: xs, y :: ys => by
    simp only [keyLe]
    by_cases hxy : x < y
    · left
      simp [hxy]
    · by_cases hyx : y < x
      · right
        simp [hyx]
      · have hxy' : x = y := by omega
        subst hxy'
        simp only [lt_irrefl, if_false]
        exact keyLe_total xs ys

theorem keyLe_trans : ∀ a b c : List Int,
    keyLe a b = true → keyLe b c = true → keyLe a c = true
  | [], _, _, _, _ => rfl
  | _ :: _, [], _, h1, _ => by simp [keyLe] at h1
  | _ :: _, _ :: _, [], _, h2 => by simp [keyLe] at h2
  | x :: xs, y :: ys, z :: zs, h1, h2 => by
    simp only [keyLe] at h1 h2 ⊢
    by_cases hxy : x < y
    · by_cases hyz : y < z
      · have hxz : x < z := by omega
        simp [hxz]
      · by_cases hzy : z < y
        · simp [hyz, hzy] at h2
        · have hyz' : y = z := by omega
          subst hyz'
          simp [hxy]
    · by_cases hyx : y < x
      · simp [hxy, hyx] at h1
      · have hxy' : x = y := by omega
        subst hxy'
        by_cases hyz : x < z
        · simp [hyz]
        · by_cases hzy : z < x
          · simp [hyz, hzy] at h2
          · have hyz' : x = z := by omega
            subst hyz'
            simp only [lt_irrefl, if_false] at h1 h2 ⊢
            exact keyLe_trans xs ys zs h1 h2

@[instance] theorem tagGe_isTotal : IsTotal Str tagGe :=
  ⟨fun a b => (keyLe_total (tagKeyD a) (tagKeyD b)).elim Or.inr Or.inl⟩

@[instance] theorem tagGe_isTrans : IsTrans Str tagGe :=
  ⟨fun _ _ _ h1 h2 => keyLe_trans _ _ _ h2 h1⟩

/-! ### Unfolding lemmas for the stages of a run -/

theorem mapM_eq_none_of_mem {α β : Type} (f : α → Option β) :
    ∀ {l : List α} {a : α}, a ∈ l → f a = none → l.mapM f = none := by
  intro l
  induction l with
  | nil => intro a ha _; cases ha
  | cons x xs ih =>
    intro a ha hf
    rcases List.mem_cons.mp ha with h | h
    · subst h
      rw [List.mapM_cons, hf]
      simp
    · cases hfx : f x with
      | none =>
        rw [List.mapM_cons, hfx]
        simp
      | some b =>
        rw [List.mapM_cons, hfx, ih h hf]
        simp

theorem copy_existing_versions_ok {env : Env}
    (h : (env.run (pySplit worktreeCmd)).exitCode = 0) :
    copy_existing_versions env =
      (Step.cmd (pySplit worktreeCmd) :: env.ghPagesDirs.map Step.copyVersionDir, none) := by
  simp [copy_existing_versions, runCmd, h]

theorem copy_existing_versions_err {env : Env}
    (h : ¬(env.run (pySplit worktreeCmd)).exitCode = 0) :
    copy_existing_versions env =
      ([Step.cmd (pySplit worktreeCmd)],
       some (PyErr.calledProcess (env.run (pySplit worktreeCmd)).stderr)) := by
  simp [copy_existing_versions, runCmd, h]

theorem generate_docs_ok {env : Env} {ref : Str}
    (h2 : (env.run (pySplit (checkoutCmd ref))).exitCode = 0)
    (h3 : (env.run (pySplit cargoDocCmd)).exitCode = 0) :
    generate_docs env ref =
      ([Step.echo (str "Generating docs for " ++ ref ++ str "..."),
        Step.cmd (pySplit (checkoutCmd ref)), Step.cmd (pySplit cargoDocCmd),
        Step.mkdirVersion ref, Step.copyBuildDocs ref, Step.writeRedirect ref], none) := by
  simp [generate_docs, runCmd, h2, h3]

theorem generate_docs_err_checkout {env : Env} {ref : Str}
    (h2 : ¬(env.run (pySplit (checkoutCmd ref))).exitCode = 0) :
    generate_docs env ref =
      ([Step.echo (str "Generating docs for " ++ ref ++ str "..."),
        Step.cmd (pySplit (checkoutCmd ref))],
       some (PyErr.calledProcess (env.run (pySplit (checkoutCmd ref))).stderr)) := by
  simp [generate_docs, runCmd, h2]

theorem generate_docs_err_cargo {env : Env} {ref : Str}
    (h2 : (env.run (pySplit (checkoutCmd ref))).exitCode = 0)
    (h3 : ¬(env.run (pySplit cargoDocCmd)).exitCode = 0) :
    generate_docs env ref =
      ([Step.echo (str "Generating docs for " ++ ref ++ str "..."),
        Step.cmd (pySplit (checkoutCmd ref)), Step.cmd (pySplit cargoDocCmd)],
       some (PyErr.calledProcess (env.run (pySplit cargoDocCmd)).stderr)) := by
  simp [generate_docs, runCmd, h2, h3]

theorem get_version_refs_ok {env : Env} {ks : List (List Int)}
    (h4 : (env.run (pySplit gitTagCmd)).exitCode = 0)
    (h5 : (pySplitlines (env.run (pySplit gitTagCmd)).stdout).mapM tagKey = some ks) :
    get_version_refs env =
      (Step.cmd (pySplit gitTagCmd),
       Except.ok (sortTags (pySplitlines (env.run (pySplit gitTagCmd)).stdout))) := by
  have h5' : List.mapM.loop tagKey (pySplitlines (env.run (pySplit gitTagCmd)).stdout) [] =
      some ks := h5
  simp [get_version_refs, runCmd, h4, h5']

theorem get_version_refs_valueError {env : Env}
    (h4 : (env.run (pySplit gitTagCmd)).exitCode = 0)
    (h5 : (pySplitlines (env.run (pySplit gitTagCmd)).stdout).mapM tagKey = none) :
    get_version_refs env =
      (Step.cmd (pySplit gitTagCmd),
       Except.error (PyErr.valueError (str "invalid literal for int() with base 10"))) := by
  have h5' : List.mapM.loop tagKey (pySplitlines (env.run (pySplit gitTagCmd)).stdout) [] =
      none := h5
  simp [get_version_refs, runCmd, h4, h5']

theorem get_version_refs_err {env : Env}
    (h4 : ¬(env.run (pySplit gitTagCmd)).exitCode = 0) :
    get_version_refs env =
      (Step.cmd (pySplit gitTagCmd),
       Except.error (PyErr.calledProcess (env.run (pySplit gitTagCmd)).stderr)) := by
  simp [get_version_refs, runCmd, h4]

theorem mainRun_ok {env : Env} {ref d : Str} {ks : List (List Int)}
    (h1 : (env.run (pySplit worktreeCmd)).exitCode = 0)
    (h2 : (env.run (pySplit (checkoutCmd ref))).exitCode = 0)
    (h3 : (env.run (pySplit cargoDocCmd)).exitCode = 0)
    (h4 : (env.run (pySplit gitTagCmd)).exitCode = 0)
    (h5 : (pySplitlines (env.run (pySplit gitTagCmd)).stdout).mapM tagKey = some ks) :
    mainRun env ref d =
      (cleanSteps ++
        (Step.cmd (pySplit worktreeCmd) :: env.ghPagesDirs.map Step.copyVersionDir) ++
        [Step.echo (str "Generating docs for " ++ ref ++ str "..."),
         Step.cmd (pySplit (checkoutCmd ref)), Step.cmd (pySplit cargoDocCmd),
         Step.mkdirVersion ref, Step.copyBuildDocs ref, Step.writeRedirect ref] ++
        [Step.cmd (pySplit gitTagCmd),
         Step.writeIndex (generate_main_index env.versionTpl env.indexTpl
           (d :: sortTags (pySplitlines (env.run (pySplit gitTagCmd)).stdout)))], none) := by
  simp only [mainRun, copy_existing_versions_ok h1, generate_docs_ok h2 h3,
    get_version_refs_ok h4 h5]

theorem mainRun_err_worktree {env : Env} {ref d : Str}
    (h1 : ¬(env.run (pySplit worktreeCmd)).exitCode = 0) :
    mainRun env ref d =
      (cleanSteps ++ [Step.cmd (pySplit worktreeCmd)],
       some (PyErr.calledProcess (env.run (pySplit worktreeCmd)).stderr)) := by
  simp only [mainRun, copy_existing_versions_err h1]

theorem mainRun_err_checkout {env : Env} {ref d : Str}
    (h1 : (env.run (pySplit worktreeCmd)).exitCode = 0)
    (h2 : ¬(env.run (pySplit (checkoutCmd ref))).exitCode = 0) :
    mainRun env ref d =
      (cleanSteps ++
        (Step.cmd (pySplit worktreeCmd) :: env.ghPagesDirs.map Step.copyVersionDir) ++
        [Step.echo (str "Generating docs for " ++ ref ++ str "..."),
         Step.cmd (pySplit (checkoutCmd ref))],
       some (PyErr.calledProcess (env.run (pySplit (checkoutCmd ref))).stderr)) := by
  simp only [mainRun, copy_existing_versions_ok h1, generate_docs_err_checkout h2]

theorem mainRun_err_cargo {env : Env} {ref d : Str}
    (h1 : (env.run (pySplit worktreeCmd)).exitCode = 0)
    (h2 : (env.run (pySplit (checkoutCmd ref))).exitCode = 0)
    (h3 : ¬(env.run (pySplit cargoDocCmd)).exitCode = 0) :
    mainRun env ref d =
      (cleanSteps ++
        (Step.cmd (pySplit worktreeCmd) :: env.ghPagesDirs.map Step.copyVersionDir) ++
        [Step.echo (str "Generating docs for " ++ ref ++ str "..."),
         Step.cmd (pySplit (checkoutCmd ref)), Step.cmd (pySplit cargoDocCmd)],
       some (PyErr.calledProcess (env.run (pySplit cargoDocCmd)).stderr)) := by
  simp only [mainRun, copy_existing_versions_ok h1, generate_docs_err_cargo h2 h3]

theorem mainRun_err_gitTag {env : Env} {ref d : Str}
    (h1 : (env.run (pySplit worktreeCmd)).exitCode = 0)
    (h2 : (env.run (pySplit (checkoutCmd ref))).exitCode = 0)
    (h3 : (env.run (pySplit cargoDocCmd)).exitCode = 0)
    (h4 : ¬(env.run (pySplit gitTagCmd)).exitCode = 0) :
    mainRun env ref d =
      (cleanSteps ++
        (Step.cmd (pySplit worktreeCmd) :: env.ghPagesDirs.map Step.copyVersionDir) ++
        [Step.echo (str "Generating docs for " ++ ref ++ str "..."),
         Step.cmd (pySplit (checkoutCmd ref)), Step.cmd (pySplit cargoDocCmd),
         Step.mkdirVersion ref, Step.copyBuildDocs ref, Step.writeRedirect ref] ++
        [Step.cmd (pySplit gitTagCmd)],
       some (PyErr.calledProcess (env.run (pySplit gitTagCmd)).stderr)) := by
  simp only [mainRun, copy_existing_versions_ok h1, generate_docs_ok h2 h3,
    get_version_refs_err h4]

theorem mainRun_valueError {env : Env} {ref d : Str}
    (h1 : (env.run (pySplit worktreeCmd)).exitCode = 0)
    (h2 : (env.run (pySplit (checkoutCmd ref))).exitCode = 0)
    (h3 : (env.run (pySplit cargoDocCmd)).exitCode = 0)
    (h4 : (env.run (pySplit gitTagCmd)).exitCode = 0)
    (h5 : (pySplitlines (env.run (pySplit gitTagCmd)).stdout).mapM tagKey = none) :
    mainRun env ref d =
      (cleanSteps ++
        (Step.cmd (pySplit worktreeCmd) :: env.ghPagesDirs.map Step.copyVersionDir) ++
        [Step.echo (str "Generating docs for " ++ ref ++ str "..."),
         Step.cmd (pySplit (checkoutCmd ref)), Step.cmd (pySplit cargoDocCmd),
         Step.mkdirVersion ref, Step.copyBuildDocs ref, Step.writeRedirect ref] ++
        [Step.cmd (pySplit gitTagCmd)],
       some (PyErr.valueError (str "invalid literal for int() with base 10"))) := by
  simp only [mainRun, copy_existing_versions_ok h1, generate_docs_ok h2 h3,
    get_version_refs_valueError h4 h5]

/-! ### Lemmas about rendering -/

theorem formatTpl_nil (v : Str) : formatTpl [] v = [] := rfl

theorem formatTpl_cons_lit (s : Str) (tpl : Tpl) (v : Str) :
    formatTpl (TplPart.lit s :: tpl) v = s ++ formatTpl tpl v := by
  simp [formatTpl]

theorem formatTpl_cons_hole (tpl : Tpl) (v : Str) :
    formatTpl (TplPart.hole :: tpl) v = v ++ formatTpl tpl v := by
  simp [formatTpl]

theorem version_list_foldl (versionTpl : Tpl) :
    ∀ (refs : List Str) (acc : Str),
      refs.foldl (fun acc ver => acc ++ formatTpl versionTpl ver) acc =
        acc ++ (refs.map (formatTpl versionTpl)).flatten
  | [], acc => by simp
  | r :: rs, acc => by
    simp [List.foldl_cons, version_list_foldl versionTpl rs]

theorem version_list_eq_flatten (versionTpl : Tpl) (refs : List Str) :
    version_list versionTpl refs = (refs.map (formatTpl versionTpl)).flatten := by
  simpa using version_list_foldl versionTpl refs []

theorem infix_formatTpl {tpl : Tpl} (h : TplPart.hole ∈ tpl) (v : Str) :
    v <:+: formatTpl tpl v := by
  induction tpl with
  | nil => cases h
  | cons p rest ih =>
    cases p with
    | hole => exact ⟨[], formatTpl rest v, by simp [formatTpl_cons_hole]⟩
    | lit s =>
      have hrest : TplPart.hole ∈ rest := by
        rcases List.mem_cons.mp h with h' | h'
        · cases h'
        · exact h'
      rcases ih hrest with ⟨s', t', hst⟩
      exact ⟨s ++ s', t', by rw [formatTpl_cons_lit, ← hst]; simp⟩

theorem mem_squeezeSpaces : ∀ s : Str, ∀ c ∈ squeezeSpaces s, c ∈ s
  | [] => by simp [squeezeSpaces]
  | [a] => by simp [squeezeSpaces]
  | a :: b :: rest => by
    intro c hc
    by_cases hab : a = ' ' ∧ b = ' '
    · rw [squeezeSpaces, if_pos hab] at hc
      exact List.mem_cons_of_mem a (mem_squeezeSpaces (b :: rest) c hc)
    · rw [squeezeSpaces, if_neg hab] at hc
      rcases List.mem_cons.mp hc with h' | h'
      · exact h' ▸ List.mem_cons_self a (b :: rest)
      · exact List.mem_cons_of_mem a (mem_squeezeSpaces (b :: rest) c h')

theorem squeezeSpaces_head? : ∀ (c : Char) (s : Str),
    (squeezeSpaces (c :: s)).head? = some c
  | c, [] => rfl
  | c, b :: rest => by
    by_cases hab : c = ' ' ∧ b = ' '
    · rw [squeezeSpaces, if_pos hab, squeezeSpaces_head? b rest, hab.1, hab.2]
    · rw [squeezeSpaces, if_neg hab]
      rfl

theorem chain'_squeezeSpaces :
    ∀ s : Str, List.Chain' (fun a b => ¬(a = ' ' ∧ b = ' ')) (squeezeSpaces s)
  | [] => by simp [squeezeSpaces]
  | [a] => by simp [squeezeSpaces]
  | a :: b :: rest => by
    by_cases hab : a = ' ' ∧ b = ' '
    · rw [squeezeSpaces, if_pos hab]
      exact chain'_squeezeSpaces (b :: rest)
    · rw [squeezeSpaces, if_neg hab]
      refine List.chain'_cons'.mpr ⟨?_, chain'_squeezeSpaces (b :: rest)⟩
      intro y hy
      rw [squeezeSpaces_head? b rest] at hy
      cases hy
      exact hab

theorem not_newline_mem_removeNewlines (s : Str) : '\n' ∉ removeNewlines s := by
  simp [removeNewlines, List.mem_filter]

theorem removeNewlines_append_newline (xs ys : Str) :
    removeNewlines (xs ++ '\n' :: ys) = removeNewlines xs ++ removeNewlines ys := by
  simp [removeNewlines, List.filter_append]

/-! ### Lemmas about splitting well-formed tag output -/

theorem pySplitlinesAux_newline (rest acc : Str) :
    pySplitlinesAux ('\n' :: rest) acc = acc.reverse :: pySplitlinesAux rest [] := rfl

theorem pySplitlinesAux_cons_no_term {c : Char} (rest acc : Str)
    (hn : c ≠ '\n') (hr : c ≠ '\r') :
    pySplitlinesAux (c :: rest) acc = pySplitlinesAux rest (c :: acc) := by
  rw [pySplitlinesAux.eq_def]
  split
  · simp_all
  · simp_all
  · simp_all
  · simp_all
  · rename_i hcons
    injection hcons with h1 h2
    rw [← h1, ← h2]

theorem pySplitlinesAux_no_term :
    ∀ (l s acc : Str), (∀ c ∈ l, c ≠ '\n' ∧ c ≠ '\r') →
      pySplitlinesAux (l ++ s) acc = pySplitlinesAux s (l.reverse ++ acc)
  | [], s, acc, _ => by simp
  | c :: l, s, acc, h => by
    have hc := h c (List.mem_cons_self c l)
    have hl : ∀ x ∈ l, x ≠ '\n' ∧ x ≠ '\r' := fun x hx => h x (List.mem_cons_of_mem c hx)
    rw [List.cons_append, pySplitlinesAux_cons_no_term _ _ hc.1 hc.2,
      pySplitlinesAux_no_term l s (c :: acc) hl]
    simp

theorem pySplitlines_join :
    ∀ lines : List Str, lines ≠ [] →
      (∀ l ∈ lines, l ≠ [] ∧ ∀ c ∈ l, c ≠ '\n' ∧ c ≠ '\r') →
      pySplitlines (joinNL lines) = lines ∧
        pySplitlines (joinNL lines ++ ['\n']) = lines
  | [], hne, _ => absurd rfl hne
  | [l], _, h => by
    rcases h l (List.mem_singleton.mpr rfl) with ⟨hl0, hlc⟩
    constructor
    · show pySplitlinesAux (joinNL [l]) [] = [l]
      have : joinNL [l] = l ++ [] := by simp [joinNL]
      rw [this, pySplitlinesAux_no_term l [] [] hlc]
      simp [pySplitlinesAux, hl0]
    · show pySplitlinesAux (joinNL [l] ++ ['\n']) [] = [l]
      have : joinNL [l] ++ ['\n'] = l ++ ['\n'] := by simp [joinNL]
      rw [this, pySplitlinesAux_no_term l ['\n'] [] hlc]
      rw [pySplitlinesAux_newline]
      simp [pySplitlinesAux]
  | l :: r :: rest, _, h => by
    rcases h l (List.mem_cons_self l (r :: rest)) with ⟨_, hlc⟩
    have hrest : ∀ x ∈ r :: rest, x ≠ [] ∧ ∀ c ∈ x, c ≠ '\n' ∧ c ≠ '\r' :=
      fun x hx => h x (List.mem_cons_of_mem l hx)
    have ih := pySplitlines_join (r :: rest) (by simp) hrest
    constructor
    · show pySplitlinesAux (joinNL (l :: r :: rest)) [] = l :: r :: rest
      rw [joinNL, pySplitlinesAux_no_term l ('\n' :: joinNL (r :: rest)) [] hlc,
        pySplitlinesAux_newline]
      simp only [List.append_nil, List.reverse_reverse]
      exact congrArg (l :: ·) ih.1
    · show pySplitlinesAux (joinNL (l :: r :: rest) ++ ['\n']) [] = l :: r :: rest
      rw [joinNL]
      have : (l ++ '\n' :: joinNL (r :: rest)) ++ ['\n'] =
          l ++ '\n' :: (joinNL (r :: rest) ++ ['\n']) := by simp
      rw [this, pySplitlinesAux_no_term l ('\n' :: (joinNL (r :: rest) ++ ['\n'])) [] hlc,
        pySplitlinesAux_newline]
      simp only [List.append_nil, List.reverse_reverse]
      exact congrArg (l :: ·) ih.2

/-! ### The claims -/

/-- C2: the claim states the Command Runner executes the external process
from a discrete argument vector, never by splitting a composed command
string on whitespace, preserving caller-given argument boundaries.  The code
does the opposite: `run_cmd` receives one composed string and calls
`cmd.split()`, so for a ref containing a space the checkout command
`git checkout my ref --` is executed with the boundary-losing argument
vector `["git","checkout","my","ref","--"]` rather than
`["git","checkout","my ref","--"]`. -/
theorem claim_C2_split_loses_argument_boundaries :
    pySplit (checkoutCmd (str "my ref")) =
      [str "git", str "checkout", str "my", str "ref", str "--"] ∧
    pySplit (checkoutCmd (str "my ref")) ≠
      [str "git", str "checkout", str "my ref", str "--"] ∧
    (runCmd (okEnv []) (checkoutCmd (str "my ref"))).1 =
      Step.cmd [str "git", str "checkout", str "my", str "ref", str "--"] :=
  ⟨by decide, by decide, by decide⟩

/-- C3: version resolution prepends the development token, so it is the
first element of the resolved list regardless of its lexical value; and on
tag-listing output `v1.2.0`, `v1.10.0`, `v1.1.0` with development token
`master`, resolution yields exactly
`[master, v1.10.0, v1.2.0, v1.1.0]`, which is the list the run's master
index is rendered from. -/
theorem claim_C3_dev_token_first :
    (∀ (dev : Str) (tags : List Str), (dev :: sortTags tags).head? = some dev) ∧
    (get_version_refs (okEnv (str "v1.2.0\nv1.10.0\nv1.1.0\n"))).2 =
      Except.ok [str "v1.10.0", str "v1.2.0", str "v1.1.0"] ∧
    str "master" :: sortTags [str "v1.2.0", str "v1.10.0", str "v1.1.0"] =
      [str "master", str "v1.10.0", str "v1.2.0", str "v1.1.0"] ∧
    Step.writeIndex
        (generate_main_index (okEnv (str "v1.2.0\nv1.10.0\nv1.1.0\n")).versionTpl
          (okEnv (str "v1.2.0\nv1.10.0\nv1.1.0\n")).indexTpl
          [str "master", str "v1.10.0", str "v1.2.0", str "v1.1.0"]) ∈
      (mainRun (okEnv (str "v1.2.0\nv1.10.0\nv1.1.0\n")) (str "master") (str "master")).1 :=
  ⟨fun _ _ => rfl, by decide, by decide, by decide⟩

/-- C4: for tag lists whose members all parse to numeric tuples, the sort of
`get_version_refs` is a permutation of the input arranged descending under
numeric-tuple comparison of the dot-separated components; `v1.9.0` sorts
after `v1.10.0` even though lexicographic string order would place
`v1.10.0` before `v1.9.0`. -/
theorem claim_C4_numeric_descending_sort (lines : List Str)
    (h : ∀ t ∈ lines, (tagKey t).isSome = true) :
    List.Pairwise
      (fun a b => ∃ ka kb, tagKey a = some ka ∧ tagKey b = some kb ∧ keyLe kb ka = true)
      (sortTags lines) ∧
    List.Perm (sortTags lines) lines ∧
    sortTags [str "v1.9.0", str "v1.10.0"] = [str "v1.10.0", str "v1.9.0"] ∧
    lexLe (str "v1.10.0") (str "v1.9.0") = true := by
  refine ⟨?_, List.perm_insertionSort tagGe lines, by decide, by decide⟩
  have hs : List.Pairwise tagGe (sortTags lines) := List.sorted_insertionSort tagGe lines
  refine hs.imp_of_mem ?_
  intro a b ha hb hab
  have hmem := (List.perm_insertionSort tagGe lines).subset
  obtain ⟨ka, hka⟩ := Option.isSome_iff_exists.mp (h a (hmem ha))
  obtain ⟨kb, hkb⟩ := Option.isSome_iff_exists.mp (h b (hmem hb))
  refine ⟨ka, kb, hka, hkb, ?_⟩
  unfold tagGe at hab
  rw [tagKeyD, tagKeyD, hka, hkb] at hab
  exact hab

/-- Witness for C4 at the spec's own example pair of tags. -/
theorem claim_C4_numeric_descending_sort_witness :
    List.Pairwise
      (fun a b => ∃ ka kb, tagKey a = some ka ∧ tagKey b = some kb ∧ keyLe kb ka = true)
      (sortTags [str "v1.9.0", str "v1.10.0"]) ∧
    List.Perm (sortTags [str "v1.9.0", str "v1.10.0"]) [str "v1.9.0", str "v1.10.0"] ∧
    sortTags [str "v1.9.0", str "v1.10.0"] = [str "v1.10.0", str "v1.9.0"] ∧
    lexLe (str "v1.10.0") (str "v1.9.0") = true :=
  claim_C4_numeric_descending_sort [str "v1.9.0", str "v1.10.0"] (by decide)

/-- C5: whichever of the four external commands is the first to exit with a
non-zero status, the run raises `CalledProcessError` there, no later step of
the run executes (the trace ends at the failing command), the `__main__`
guard prints exactly that command's captured stderr as the diagnostic, and
the process exits with status 1. -/
theorem claim_C5_command_failure_aborts (env : Env) (arg : Option Str) :
    (¬(env.run (pySplit worktreeCmd)).exitCode = 0 →
      topLevel env arg =
        Outcome.failed (cleanSteps ++ [Step.cmd (pySplit worktreeCmd)])
          (env.run (pySplit worktreeCmd)).stderr ∧
      (topLevel env arg).exitCode = 1) ∧
    ((env.run (pySplit worktreeCmd)).exitCode = 0 →
      ¬(env.run (pySplit (checkoutCmd (arg.getD (str "master"))))).exitCode = 0 →
      topLevel env arg =
        Outcome.failed
          (cleanSteps ++
            (Step.cmd (pySplit worktreeCmd) :: env.ghPagesDirs.map Step.copyVersionDir) ++
            [Step.echo (str "Generating docs for " ++ arg.getD (str "master") ++ str "..."),
             Step.cmd (pySplit (checkoutCmd (arg.getD (str "master"))))])
          (env.run (pySplit (checkoutCmd (arg.getD (str "master"))))).stderr ∧
      (topLevel env arg).exitCode = 1) ∧
    ((env.run (pySplit worktreeCmd)).exitCode = 0 →
      (env.run (pySplit (checkoutCmd (arg.getD (str "master"))))).exitCode = 0 →
      ¬(env.run (pySplit cargoDocCmd)).exitCode = 0 →
      topLevel env arg =
        Outcome.failed
          (cleanSteps ++
            (Step.cmd (pySplit worktreeCmd) :: env.ghPagesDirs.map Step.copyVersionDir) ++
            [Step.echo (str "Generating docs for " ++ arg.getD (str "master") ++ str "..."),
             Step.cmd (pySplit (checkoutCmd (arg.getD (str "master")))),
             Step.cmd (pySplit cargoDocCmd)])
          (env.run (pySplit cargoDocCmd)).stderr ∧
      (topLevel env arg).exitCode = 1) ∧
    ((env.run (pySplit worktreeCmd)).exitCode = 0 →
      (env.run (pySplit (checkoutCmd (arg.getD (str "master"))))).exitCode = 0 →
      (env.run (pySplit cargoDocCmd)).exitCode = 0 →
      ¬(env.run (pySplit gitTagCmd)).exitCode = 0 →
      topLevel env arg =
        Outcome.failed
          (cleanSteps ++
            (Step.cmd (pySplit worktreeCmd) :: env.ghPagesDirs.map Step.copyVersionDir) ++
            [Step.echo (str "Generating docs for " ++ arg.getD (str "master") ++ str "..."),
             Step.cmd (pySplit (checkoutCmd (arg.getD (str "master")))),
             Step.cmd (pySplit cargoDocCmd), Step.mkdirVersion (arg.getD (str "master")),
             Step.copyBuildDocs (arg.getD (str "master")),
             Step.writeRedirect (arg.getD (str "master"))] ++
            [Step.cmd (pySplit gitTagCmd)])
          (env.run (pySplit gitTagCmd)).stderr ∧
      (topLevel env arg).exitCode = 1) := by
  refine ⟨fun h1 => ?_, fun h1 h2 => ?_, fun h1 h2 h3 => ?_, fun h1 h2 h3 h4 => ?_⟩
  · have hm := @mainRun_err_worktree env (arg.getD (str "master")) (str "master") h1
    refine ⟨by simp only [topLevel, hm], ?_⟩
    simp only [topLevel, hm, Outcome.exitCode]
  · have hm := @mainRun_err_checkout env (arg.getD (str "master")) (str "master") h1 h2
    refine ⟨by simp only [topLevel, hm], ?_⟩
    simp only [topLevel, hm, Outcome.exitCode]
  · have hm := @mainRun_err_cargo env (arg.getD (str "master")) (str "master") h1 h2 h3
    refine ⟨by simp only [topLevel, hm], ?_⟩
    simp only [topLevel, hm, Outcome.exitCode]
  · have hm := @mainRun_err_gitTag env (arg.getD (str "master")) (str "master") h1 h2 h3 h4
    refine ⟨by simp only [topLevel, hm], ?_⟩
    simp only [topLevel, hm, Outcome.exitCode]

/-- Witness for C5: in `failEnv` the first command (`git worktree add`)
exits with status 128 and stderr `fatal: boom`; the run stops right there
and the process prints that stderr and exits 1. -/
theorem claim_C5_command_failure_aborts_witness :
    topLevel failEnv none =
      Outcome.failed (cleanSteps ++ [Step.cmd (pySplit worktreeCmd)])
        ((failEnv.run (pySplit worktreeCmd)).stderr) ∧
    (topLevel failEnv none).exitCode = 1 :=
  (claim_C5_command_failure_aborts failEnv none).1 (by decide)

/-- C1 (counterexample): a successful run whose resolved version list is
`[master, v1.0.0]` renders the master index over that list but writes a
redirect page only for `master` — no redirect page is written for the tag
`v1.0.0`, refuting "writes a redirect page for each version in the resolved
version list". -/
theorem claim_C1_counterexample :
    (mainRun (okEnv (str "v1.0.0\n")) (str "master") (str "master")).2 = none ∧
    Step.writeIndex
        (generate_main_index (okEnv (str "v1.0.0\n")).versionTpl
          (okEnv (str "v1.0.0\n")).indexTpl [str "master", str "v1.0.0"]) ∈
      (mainRun (okEnv (str "v1.0.0\n")) (str "master") (str "master")).1 ∧
    Step.writeRedirect (str "v1.0.0") ∉
      (mainRun (okEnv (str "v1.0.0\n")) (str "master") (str "master")).1 :=
  ⟨by decide, by decide, by decide⟩

/-- C1 (amended): in every run in which all external commands succeed and
every tag parses, the external build, artifact copy and redirect page are
performed for the single requested ref only (a redirect page is written for
a version exactly when it is the requested ref); the version set is resolved
after that generation (the tag listing is executed before the index write),
and rendering the master index over the development token and every sorted
tag is the final step, performed exactly once. -/
theorem claim_C1_single_ref_then_index {env : Env} {ref d : Str} {ks : List (List Int)}
    (h1 : (env.run (pySplit worktreeCmd)).exitCode = 0)
    (h2 : (env.run (pySplit (checkoutCmd ref))).exitCode = 0)
    (h3 : (env.run (pySplit cargoDocCmd)).exitCode = 0)
    (h4 : (env.run (pySplit gitTagCmd)).exitCode = 0)
    (h5 : (pySplitlines (env.run (pySplit gitTagCmd)).stdout).mapM tagKey = some ks) :
    (∀ v, Step.writeRedirect v ∈ (mainRun env ref d).1 ↔ v = ref) ∧
    (mainRun env ref d).2 = none ∧
    (∃ t, (mainRun env ref d).1 =
        t ++ [Step.writeIndex (generate_main_index env.versionTpl env.indexTpl
          (d :: sortTags (pySplitlines (env.run (pySplit gitTagCmd)).stdout)))] ∧
      (∀ c, Step.writeIndex c ∉ t) ∧
      Step.cmd (pySplit gitTagCmd) ∈ t) := by
  have hm := @mainRun_ok env ref d ks h1 h2 h3 h4 h5
  refine ⟨?_, ?_, ?_⟩
  · intro v
    rw [hm]
    simp [cleanSteps, List.mem_append, List.mem_map]
  · rw [hm]
  · refine ⟨cleanSteps ++
      (Step.cmd (pySplit worktreeCmd) :: env.ghPagesDirs.map Step.copyVersionDir) ++
      [Step.echo (str "Generating docs for " ++ ref ++ str "..."),
       Step.cmd (pySplit (checkoutCmd ref)), Step.cmd (pySplit cargoDocCmd),
       Step.mkdirVersion ref, Step.copyBuildDocs ref, Step.writeRedirect ref] ++
      [Step.cmd (pySplit gitTagCmd)], ?_, ?_, ?_⟩
    · rw [hm]
      simp [List.append_assoc]
    · intro c
      simp [cleanSteps, List.mem_append, List.mem_map]
    · simp

/-- Witness for the amended C1, at a run over one tag `v1.0.0`. -/
theorem claim_C1_single_ref_then_index_witness :
    (∀ v, Step.writeRedirect v ∈
        (mainRun (okEnv (str "v1.0.0\n")) (str "master") (str "master")).1 ↔
      v = str "master") ∧
    (mainRun (okEnv (str "v1.0.0\n")) (str "master") (str "master")).2 = none ∧
    (∃ t, (mainRun (okEnv (str "v1.0.0\n")) (str "master") (str "master")).1 =
        t ++ [Step.writeIndex (generate_main_index (okEnv (str "v1.0.0\n")).versionTpl
          (okEnv (str "v1.0.0\n")).indexTpl
          (str "master" ::
            sortTags (pySplitlines ((okEnv (str "v1.0.0\n")).run (pySplit gitTagCmd)).stdout)))] ∧
      (∀ c, Step.writeIndex c ∉ t) ∧
      Step.cmd (pySplit gitTagCmd) ∈ t) :=
  claim_C1_single_ref_then_index (by decide) (by decide) (by decide) (by decide)
    (show (pySplitlines ((okEnv (str "v1.0.0\n")).run (pySplit gitTagCmd)).stdout).mapM tagKey =
        some [[1, 0, 0]] by decide)

/-- C6 (counterexample): `git tag` output with a blank line between two tags
does not yield the same version list as the output without the blank line —
the blank line is parsed as a tag, `int("")` raises `ValueError`, and
resolution errors instead of discarding the empty line. -/
theorem claim_C6_counterexample :
    (get_version_refs (okEnv (str "v1.0.0\n\nv2.0.0"))).2 =
      Except.error (PyErr.valueError (str "invalid literal for int() with base 10")) ∧
    (get_version_refs (okEnv (str "v1.0.0\nv2.0.0"))).2 =
      Except.ok [str "v2.0.0", str "v1.0.0"] ∧
    (get_version_refs (okEnv (str "v1.0.0\n\nv2.0.0"))).2 ≠
      (get_version_refs (okEnv (str "v1.0.0\nv2.0.0"))).2 :=
  ⟨by decide, by decide, by decide⟩

/-- C6 (amended): the only empty line discarded is the one a trailing
terminator would create — for well-formed tag output (nonempty lines with no
terminator characters), the parsed line list is the same with or without a
final newline; an output containing an interior empty line instead makes
version resolution fail with a `ValueError`. -/
theorem claim_C6_empty_line_behaviour :
    (∀ lines : List Str, lines ≠ [] →
      (∀ l ∈ lines, l ≠ [] ∧ ∀ c ∈ l, c ≠ '\n' ∧ c ≠ '\r') →
      pySplitlines (joinNL lines ++ ['\n']) = lines ∧
        pySplitlines (joinNL lines) = lines) ∧
    (∀ env : Env, (env.run (pySplit gitTagCmd)).exitCode = 0 →
      [] ∈ pySplitlines (env.run (pySplit gitTagCmd)).stdout →
      (get_version_refs env).2 =
        Except.error (PyErr.valueError (str "invalid literal for int() with base 10"))) := by
  constructor
  · intro lines hne h
    have hj := pySplitlines_join lines hne h
    exact ⟨hj.2, hj.1⟩
  · intro env h4 hmem
    have hk : tagKey [] = none := by decide
    have h5 := mapM_eq_none_of_mem tagKey hmem hk
    rw [get_version_refs_valueError h4 h5]

/-- Witness for the amended C6: one well-formed tag line with and without a
trailing newline, and an interior blank line causing the error. -/
theorem claim_C6_empty_line_behaviour_witness :
    (pySplitlines (joinNL [str "v1.0.0"] ++ ['\n']) = [str "v1.0.0"] ∧
      pySplitlines (joinNL [str "v1.0.0"]) = [str "v1.0.0"]) ∧
    (get_version_refs (okEnv (str "v2.0.0\n\nv1.0.0"))).2 =
      Except.error (PyErr.valueError (str "invalid literal for int() with base 10")) :=
  ⟨(claim_C6_empty_line_behaviour.1 [str "v1.0.0"] (by decide) (by decide)),
   (claim_C6_empty_line_behaviour.2 (okEnv (str "v2.0.0\n\nv1.0.0")) (by decide) (by decide))⟩

/-- C7: when the tag listing succeeds but contains a tag whose key fails to
parse (after stripping leading marker characters, some dot-separated field
is not an integer), version resolution raises `ValueError` instead of
producing an ordering, and a run reaching that point aborts with the
`ValueError` without ever writing the master index. -/
theorem claim_C7_malformed_tag_fails_fast (env : Env) (t : Str)
    (h4 : (env.run (pySplit gitTagCmd)).exitCode = 0)
    (ht : t ∈ pySplitlines (env.run (pySplit gitTagCmd)).stdout)
    (hk : tagKey t = none) :
    (get_version_refs env).2 =
      Except.error (PyErr.valueError (str "invalid literal for int() with base 10")) ∧
    ∀ ref d : Str,
      (env.run (pySplit worktreeCmd)).exitCode = 0 →
      (env.run (pySplit (checkoutCmd ref))).exitCode = 0 →
      (env.run (pySplit cargoDocCmd)).exitCode = 0 →
      (mainRun env ref d).2 =
          some (PyErr.valueError (str "invalid literal for int() with base 10")) ∧
        ∀ c, Step.writeIndex c ∉ (mainRun env ref d).1 := by
  have h5 := mapM_eq_none_of_mem tagKey ht hk
  constructor
  · rw [get_version_refs_valueError h4 h5]
  · intro ref d h1 h2 h3
    have hm := @mainRun_valueError env ref d h1 h2 h3 h4 h5
    constructor
    · rw [hm]
    · intro c
      rw [hm]
      simp [cleanSteps, List.mem_append, List.mem_map]

/-- Witness for C7 at a listing containing the malformed tag
`not-a-version`. -/
theorem claim_C7_malformed_tag_fails_fast_witness :
    (get_version_refs (okEnv (str "not-a-version"))).2 =
      Except.error (PyErr.valueError (str "invalid literal for int() with base 10")) ∧
    (mainRun (okEnv (str "not-a-version")) (str "master") (str "master")).2 =
      some (PyErr.valueError (str "invalid literal for int() with base 10")) ∧
    ∀ c, Step.writeIndex c ∉
      (mainRun (okEnv (str "not-a-version")) (str "master") (str "master")).1 := by
  have h := claim_C7_malformed_tag_fails_fast (okEnv (str "not-a-version"))
    (str "not-a-version") (by decide) (by decide) (by decide)
  have h2 := h.2 (str "master") (str "master") (by decide) (by decide) (by decide)
  exact ⟨h.1, h2.1, h2.2⟩

/-- C10: the `__main__` guard catches exactly `CalledProcessError`: a run
ending in `ValueError` (as a malformed tag produces) terminates uncaught,
not through the print-stderr-and-exit-1 path; a run ending in
`CalledProcessError` takes that path; a completed run exits normally. -/
theorem claim_C10_only_calledProcess_caught :
    (∀ (env : Env) (arg : Option Str) (t : List Step) (m : Str),
      mainRun env (arg.getD (str "master")) (str "master") = (t, some (PyErr.valueError m)) →
      topLevel env arg = Outcome.uncaught t m) ∧
    (∀ (env : Env) (arg : Option Str) (t : List Step) (s : Str),
      mainRun env (arg.getD (str "master")) (str "master") = (t, some (PyErr.calledProcess s)) →
      topLevel env arg = Outcome.failed t s) ∧
    (∀ (env : Env) (arg : Option Str) (t : List Step),
      mainRun env (arg.getD (str "master")) (str "master") = (t, none) →
      topLevel env arg = Outcome.ok t) ∧
    (∀ (env : Env) (arg : Option Str),
      (env.run (pySplit worktreeCmd)).exitCode = 0 →
      (env.run (pySplit (checkoutCmd (arg.getD (str "master"))))).exitCode = 0 →
      (env.run (pySplit cargoDocCmd)).exitCode = 0 →
      (env.run (pySplit gitTagCmd)).exitCode = 0 →
      (pySplitlines (env.run (pySplit gitTagCmd)).stdout).mapM tagKey = none →
      ∃ t, topLevel env arg =
        Outcome.uncaught t (str "invalid literal for int() with base 10")) := by
  refine ⟨?_, ?_, ?_, ?_⟩
  · intro env arg t m h
    simp only [topLevel, h]
  · intro env arg t s h
    simp only [topLevel, h]
  · intro env arg t h
    simp only [topLevel, h]
  · intro env arg h1 h2 h3 h4 h5
    have hm := @mainRun_valueError env (arg.getD (str "master")) (str "master") h1 h2 h3 h4 h5
    refine ⟨cleanSteps ++
      (Step.cmd (pySplit worktreeCmd) :: env.ghPagesDirs.map Step.copyVersionDir) ++
      [Step.echo (str "Generating docs for " ++ arg.getD (str "master") ++ str "..."),
       Step.cmd (pySplit (checkoutCmd (arg.getD (str "master")))),
       Step.cmd (pySplit cargoDocCmd), Step.mkdirVersion (arg.getD (str "master")),
       Step.copyBuildDocs (arg.getD (str "master")),
       Step.writeRedirect (arg.getD (str "master"))] ++
      [Step.cmd (pySplit gitTagCmd)], ?_⟩
    simp only [topLevel, hm]

/-- Witness for C10: with tag listing `not-a-version` the process ends
uncaught with the `ValueError`, the trace ending at the tag listing. -/
theorem claim_C10_only_calledProcess_caught_witness :
    topLevel (okEnv (str "not-a-version")) none =
      Outcome.uncaught
        [Step.clean, Step.cmd (pySplit worktreeCmd), Step.copyVersionDir (str "v0.9.0"),
         Step.echo (str "Generating docs for master..."),
         Step.cmd (pySplit (checkoutCmd (str "master"))), Step.cmd (pySplit cargoDocCmd),
         Step.mkdirVersion (str "master"), Step.copyBuildDocs (str "master"),
         Step.writeRedirect (str "master"), Step.cmd (pySplit gitTagCmd)]
        (str "invalid literal for int() with base 10") :=
  claim_C10_only_calledProcess_caught.1 (okEnv (str "not-a-version")) none _ _ (by decide)

/-- C8: rendering the master index expands the per-version row template once
per version — the accumulated block is the concatenation, in list order and
with nothing inserted between them, of the row template expanded at each
version; each expansion contains its version (whenever the row template
actually has the placeholder); and the accumulated block appears inside the
expansion of the index template's placeholder. -/
theorem claim_C8_index_rendering (versionTpl indexTpl : Tpl) (refs : List Str) :
    version_list versionTpl refs = (refs.map (formatTpl versionTpl)).flatten ∧
    (refs.map (formatTpl versionTpl)).length = refs.length ∧
    (TplPart.hole ∈ versionTpl → ∀ v ∈ refs, v <:+: formatTpl versionTpl v) ∧
    (TplPart.hole ∈ indexTpl →
      version_list versionTpl refs <:+: index_raw versionTpl indexTpl refs) := by
  refine ⟨version_list_eq_flatten versionTpl refs, by simp, ?_, ?_⟩
  · intro hh v _
    exact infix_formatTpl hh v
  · intro hh
    exact infix_formatTpl hh _

/-- Witness for C8 at concrete templates and a two-version list. -/
theorem claim_C8_index_rendering_witness :
    str "master" <:+:
      formatTpl [TplPart.lit (str "<li>"), TplPart.hole, TplPart.lit (str "</li>")]
        (str "master") ∧
    version_list [TplPart.lit (str "<li>"), TplPart.hole, TplPart.lit (str "</li>")]
        [str "master", str "v1.0.0"] <:+:
      index_raw [TplPart.lit (str "<li>"), TplPart.hole, TplPart.lit (str "</li>")]
        [TplPart.lit (str "<ul>"), TplPart.hole, TplPart.lit (str "</ul>")]
        [str "master", str "v1.0.0"] :=
  ⟨(claim_C8_index_rendering
      [TplPart.lit (str "<li>"), TplPart.hole, TplPart.lit (str "</li>")]
      [TplPart.lit (str "<ul>"), TplPart.hole, TplPart.lit (str "</ul>")]
      [str "master", str "v1.0.0"]).2.2.1 (by decide) (str "master") (by decide),
   (claim_C8_index_rendering
      [TplPart.lit (str "<li>"), TplPart.hole, TplPart.lit (str "</li>")]
      [TplPart.lit (str "<ul>"), TplPart.hole, TplPart.lit (str "</ul>")]
      [str "master", str "v1.0.0"]).2.2.2 (by decide)⟩

/-- C9: the written master index contains no newline character (newlines are
deleted outright — the text of adjacent template lines is joined with
nothing inserted, as the third conjunct states for the deletion function)
and contains no two consecutive spaces. -/
theorem claim_C9_whitespace_normalisation (versionTpl indexTpl : Tpl) (refs : List Str) :
    '\n' ∉ generate_main_index versionTpl indexTpl refs ∧
    List.Chain' (fun a b => ¬(a = ' ' ∧ b = ' '))
      (generate_main_index versionTpl indexTpl refs) ∧
    (∀ xs ys : Str, removeNewlines (xs ++ '\n' :: ys) =
      removeNewlines xs ++ removeNewlines ys) := by
  refine ⟨?_, chain'_squeezeSpaces _, removeNewlines_append_newline⟩
  intro hmem
  exact not_newline_mem_removeNewlines _ (mem_squeezeSpaces _ _ hmem)
